import Mathlib

/-
  Verification of the go-lirc connection engine against its specification.

  The definitions below are a shallow embedding of the Go sources:
  the protocol reader state machine (`lircReader.read`), the dispatch
  loop of `Connection.Start`, the decision logic of
  `Connection.SendCommand`, the command encoders of commands.go, and the
  shutdown sequence at the end of `Connection.Start`.

  Conventions:
  - Go machine integers are modelled as `Int`/`Nat`; no arithmetic here
    approaches 64-bit bounds, and the stdlib parse functions model Go's
    own range checks explicitly.
  - Fallible Go code returns `Option`; a `none` result of `read` models a
    runtime panic (index out of range, `make` with negative capacity).
  - Channel sends guarded by `select { case <-ctx.Done(): ... }` are
    modelled with an explicit `done : Bool` flag: when `done` is true the
    send is dropped, otherwise the value is appended to the output list.
-/

namespace GoLirc

/-- Embeds `ButtonPress` (event struct): `Code uint16`, `RepeatCount uint`,
`ButtonName string`, `RemoteControlName string`. -/
structure ButtonPress where
  code : Nat
  repeatCount : Nat
  buttonName : String
  remoteControlName : String
deriving DecidableEq

/-- Embeds `CommandReply`: `Command string`, `Success bool`, `Data []string`. -/
structure CommandReply where
  command : String
  success : Bool
  data : List String
deriving DecidableEq

/-- Embeds the `connectionState` constants of the Go source (all eight,
including the never-entered `stateMessage`). -/
inductive ConnectionState where
  | stateReceive
  | stateReply
  | stateMessage
  | stateStatus
  | stateDataStart
  | stateDataLength
  | stateData
  | stateDataEnd
deriving DecidableEq

/-- Embeds the mutable fields of `lircReader`: `state`, `reply`,
`dataCount int`, `dataLength int`. The Go ints are modelled as `Int`. -/
structure LircReader where
  state : ConnectionState
  reply : CommandReply
  dataCount : Int
  dataLength : Int
deriving DecidableEq

/-- Embeds `newLircReader`: the reader starts in `stateReceive` with
zero-valued accumulators (`CommandReply{}` has empty command, false
success and nil data). -/
def newLircReader : LircReader :=
  { state := .stateReceive
    reply := { command := "", success := false, data := [] }
    dataCount := 0
    dataLength := 0 }

/-- Hex digit value accepted by Go `encoding/hex`: 0-9, a-f, A-F. -/
def hexDigitVal (c : Char) : Option Nat :=
  if c.toNat ≥ 48 ∧ c.toNat ≤ 57 then some (c.toNat - 48)
  else if c.toNat ≥ 97 ∧ c.toNat ≤ 102 then some (c.toNat - 97 + 10)
  else if c.toNat ≥ 65 ∧ c.toNat ≤ 70 then some (c.toNat - 65 + 10)
  else none

/-- Models Go `hex.DecodeString` on a character list: decodes pairs of hex
digits into bytes; an odd-length or non-hex input is an error (`none`),
matching the `err != nil` check in the Go caller. -/
def hexDecodeList : List Char → Option (List Nat)
  | [] => some []
  | [_] => none
  | c1 :: c2 :: rest => do
      let hi ← hexDigitVal c1
      let lo ← hexDigitVal c2
      let bs ← hexDecodeList rest
      return (16 * hi + lo) :: bs

/-- Models Go `hex.DecodeString` on a string. -/
def hexDecode (s : String) : Option (List Nat) :=
  hexDecodeList s.data

/-- Decimal value of a digit list, most significant first. -/
def digitsVal (l : List Char) : Nat :=
  l.foldl (fun acc c => acc * 10 + (c.toNat - 48)) 0

/-- Models Go `strconv.ParseUint(s, 10, 0)` (bit size 0 = 64-bit `uint`):
no sign prefix, at least one digit, all digits, value at most 2^64 - 1
(overflow is a parse error). -/
def parseUintGo (s : String) : Option Nat :=
  let cs := s.data
  if cs ≠ [] ∧ cs.all Char.isDigit ∧ digitsVal cs ≤ 2 ^ 64 - 1 then
    some (digitsVal cs)
  else none

def int64Max : Int := 2 ^ 63 - 1
def int64Min : Int := -(2 ^ 63)

/-- Core of `strconv.Atoi` after the optional sign: Go returns `(0, err)`
on a syntax error and the clamped extreme `(int64Max/int64Min, err)` on a
range error. The `Bool` is `err == nil`. -/
def atoiCore (sign : Int) (rest : List Char) : Int × Bool :=
  if rest = [] ∨ ¬ rest.all Char.isDigit then (0, false)
  else
    let v : Int := sign * (digitsVal rest : Int)
    if v > int64Max then (int64Max, false)
    else if v < int64Min then (int64Min, false)
    else (v, true)

/-- Models Go `strconv.Atoi` (= `ParseInt(s, 10, 0)` on a 64-bit platform):
optional single sign, then digits. Returns Go's `(value, err == nil)`
convention, since the Go caller assigns the value even on error. -/
def atoiGo (s : String) : Int × Bool :=
  match s.data with
  | [] => (0, false)
  | '+' :: rest => atoiCore 1 rest
  | '-' :: rest => atoiCore (-1) rest
  | cs => atoiCore 1 cs

/-- Models Go `strings.Split(s, " ")`: split at every single space,
keeping empty fields; the result is never empty. Auxiliary recursion with
an accumulator of the current field's characters, reversed. -/
def splitSpaceAux : List Char → List Char → List String
  | [], acc => [String.mk acc.reverse]
  | ' ' :: rest, acc => String.mk acc.reverse :: splitSpaceAux rest []
  | ch :: rest, acc => splitSpaceAux rest (ch :: acc)

/-- Models Go `strings.Split(s, " ")`. -/
def stringsSplitSpace (s : String) : List String :=
  splitSpaceAux s.data []

/-- Embeds the padding step of `lircReader.read` (`stateReceive` case):
left-pad the first field with `'0'` to 16 characters when shorter. -/
def padLeft16 (h : String) : String :=
  if h.length < 16 then String.mk (List.replicate (16 - h.length) '0') ++ h else h

/-- Models `binary.LittleEndian.Uint16(c)`: the first byte plus 256 times
the second. Only called after the `len(c) == 8` check in `read`, so the
catch-all (where Go would panic on fewer than 2 bytes) is unreachable. -/
def leUint16 : List Nat → Nat
  | b0 :: b1 :: _ => b0 + 256 * b1
  | _ => 0

/-- One output emitted by the reader: a button-press event on the events
channel or a completed reply on the replies channel. -/
inductive ROutput where
  | event (e : ButtonPress)
  | reply (rep : CommandReply)
deriving DecidableEq

/-- Embeds `lircReader.stateError`: log (not modelled) and reset the
parser state to `stateReceive`. All other fields are untouched. -/
def stateErrorR (r : LircReader) : LircReader :=
  { r with state := .stateReceive }

/-- Embeds `lircReader.read` line by line. `done` is whether the shared
context is cancelled at the channel-send points (`flushReply` and the
event send); a cancelled send drops the value. A `none` result models a
Go runtime panic:
- in `stateReceive`, indexing `w[1]`, `w[2]`, `w[3]` out of range when the
  line has too few space-separated fields;
- in `stateDataLength`, `make([]string, 0, n)` with negative `n`
  (`strconv.Atoi` accepts negative numbers). -/
def read (done : Bool) (r : LircReader) (line : String) :
    Option (LircReader × List ROutput) :=
  match r.state with
  | .stateReceive =>
    if line = "BEGIN" then
      some ({ r with
                state := .stateReply
                reply := { command := "", success := false, data := [] }
                dataCount := 0
                dataLength := 0 }, [])
    else
      let w := stringsSplitSpace line
      let h := padLeft16 w.headI
      match hexDecode h with
      | none => some (stateErrorR r, [])
      | some c =>
        if c.length ≠ 8 then some (stateErrorR r, [])
        else
          match w[1]? with
          | none => none
          | some w1 =>
            match parseUintGo w1 with
            | none => some (stateErrorR r, [])
            | some repeats =>
              match w[2]?, w[3]? with
              | some w2, some w3 =>
                let event : ButtonPress :=
                  { code := leUint16 c
                    repeatCount := repeats
                    buttonName := w2
                    remoteControlName := w3 }
                if done then some (r, []) else some (r, [.event event])
              | _, _ => none
  | .stateReply =>
    some ({ r with
              state := .stateStatus
              reply := { command := line, success := true, data := [] } }, [])
  | .stateStatus =>
    if line = "SUCCESS" then some ({ r with state := .stateDataStart }, [])
    else if line = "ERROR" then
      some ({ r with
                state := .stateDataStart
                reply := { r.reply with success := false } }, [])
    else if line = "END" then
      some ({ r with state := .stateReceive },
            if done then [] else [.reply r.reply])
    else some (stateErrorR r, [])
  | .stateDataStart =>
    if line = "DATA" then some ({ r with state := .stateDataLength }, [])
    else if line = "END" then
      some ({ r with state := .stateReceive },
            if done then [] else [.reply r.reply])
    else some (stateErrorR r, [])
  | .stateDataLength =>
    let p := atoiGo line
    if p.2 = false then
      some ({ r with dataLength := p.1, state := .stateReceive }, [])
    else if p.1 < 0 then none
    else
      some ({ r with
                state := .stateData
                dataLength := p.1
                dataCount := 0
                reply := { r.reply with data := [] } }, [])
  | .stateData =>
    let reply := { r.reply with data := r.reply.data ++ [line] }
    let cnt := r.dataCount + 1
    if cnt > r.dataLength then
      some ({ r with reply := reply, dataCount := cnt, state := .stateDataEnd }, [])
    else
      some ({ r with reply := reply, dataCount := cnt }, [])
  | .stateDataEnd =>
    if line ≠ "END" then some (stateErrorR r, [])
    else
      some ({ r with state := .stateReceive },
            if done then [] else [.reply r.reply])
  | .stateMessage =>
    -- `stateMessage` is declared in the Go source but matches no case of
    -- the switch, so the line is silently ignored.
    some (r, [])

/-- Folds `read` over a list of lines, accumulating the emitted outputs
and propagating a panic. -/
def readLines (done : Bool) : LircReader → List String → Option (LircReader × List ROutput)
  | r, [] => some (r, [])
  | r, l :: ls =>
    match read done r l with
    | none => none
    | some (r2, out) =>
      match readLines done r2 ls with
      | none => none
      | some (r3, outs) => some (r3, out ++ outs)

/-- Embeds `Version.EncodeCommand` from commands.go. -/
def versionEncodeCommand : List String := ["VERSION"]

/-- Embeds `List.EncodeCommand` from commands.go (`List` is the LIST
command struct with its optional `RemoteControl` field). -/
def listEncodeCommand (remoteControl : String) : List String :=
  if remoteControl = "" then ["LIST"] else ["LIST", remoteControl]

/-- The outcome `Connection.SendCommand` computes from a received reply. -/
inductive SendOutcome where
  | ok
  | errUnsuccessfulCommand
  | errUnexpectedReplyCommand (got : String)
deriving DecidableEq

/-- Embeds the reply-handling branch of `Connection.SendCommand`: the
reply's command is compared with `command.EncodeCommand()[0]` first
(mismatch returns the "unexpected reply command" error), then the success
flag is checked (false returns `ErrUnsuccessfulCommand`). `none` models
the panic Go would raise indexing an empty encoding. -/
def sendCommandDecision (tokens : List String) (rep : CommandReply) :
    Option SendOutcome :=
  match tokens with
  | [] => none
  | t0 :: _ =>
    if rep.command ≠ t0 then some (.errUnexpectedReplyCommand rep.command)
    else if rep.success = false then some .errUnsuccessfulCommand
    else some .ok

/-- The write/dispatch loop's slot: `accepting` means `sendingCh` is the
live send channel, `awaiting` means `sendingCh` has been set to nil after
a successful write, `terminated` means the goroutine has returned. -/
inductive DispatchState where
  | accepting
  | awaiting
  | terminated
deriving DecidableEq

/-- One iteration's wakeup of the dispatch loop's select. -/
inductive DispatchEvent where
  | ctxDone
  | recvCommand (tokens : List String) (writeOk : Bool)
  | recvReply (rep : CommandReply) (doneAtDelivery : Bool)
deriving DecidableEq

/-- Observable actions of one dispatch-loop iteration. -/
inductive DispatchAction where
  | wroteLine (s : String)
  | fatalWriteError
  | logSighup
  | deliverReply (rep : CommandReply)
deriving DecidableEq

/-- Whether the loop's select can currently take a command from the send
channel: only while `sendingCh` is non-nil, i.e. in `accepting`. -/
def commandIntakeEnabled : DispatchState → Bool
  | .accepting => true
  | _ => false

/-- Which select cases are enabled in each slot state. In `awaiting`,
`sendingCh` is nil and a receive from a nil channel never fires, so a
command can never be taken. -/
def dispatchEnabled : DispatchState → DispatchEvent → Bool
  | .terminated, _ => false
  | .awaiting, .recvCommand _ _ => false
  | _, _ => true

/-- Embeds one iteration of the write/dispatch loop in `Connection.Start`:
- `ctxDone`: return.
- a command while accepting: join its tokens with spaces plus a newline
  and write it; a failed write records the cause and returns; a
  successful write sets `sendingCh = nil` (state `awaiting`).
- a completed reply: the literal command name `"SIGHUP"` is only logged
  (`continue`), leaving the slot untouched; otherwise the reply is handed
  to `r.reply` unless the context is done first (return), and the send
  channel is reinstated (state `accepting`). -/
def dispatchStep : DispatchState → DispatchEvent → DispatchState × List DispatchAction
  | .terminated, _ => (.terminated, [])
  | _, .ctxDone => (.terminated, [])
  | .accepting, .recvCommand tokens writeOk =>
    if writeOk then
      (.awaiting, [.wroteLine (String.intercalate " " tokens ++ "\n")])
    else (.terminated, [.fatalWriteError])
  | .awaiting, .recvCommand _ _ =>
    -- unreachable: `dispatchEnabled` rules this select case out while
    -- `sendingCh` is nil; kept total with a no-op.
    (.awaiting, [])
  | s, .recvReply rep doneAtDelivery =>
    if rep.command = "SIGHUP" then (s, [.logSighup])
    else if doneAtDelivery then (.terminated, [])
    else (.accepting, [.deliverReply rep])

/-- Errors visible at the end of `Connection.Start`. `canceled` is Go's
`context.Canceled`; `ioError` a recorded read/write failure passed to
`cancel(err)`; `closeError` the wrapped `conn.Close` failure. -/
inductive GoError where
  | canceled
  | deadlineExceeded
  | ioError (msg : String)
  | closeError (msg : String)
deriving DecidableEq

/-- Models Go `context.Cause` on a context that is already done: the
recorded non-nil cause if `cancel(err)` was called with one, otherwise
`context.Canceled` (a plain cancellation, `cancel(nil)`, or cancellation
of the parent context all record `Canceled`; the cause of a done context
is never nil). -/
def contextCause (recorded : Option GoError) : GoError :=
  recorded.getD .canceled

/-- The ordered phases of the tail of `Connection.Start` (lines after the
two goroutines are launched). -/
inductive StartPhase where
  | awaitCancel
  | closeStream
  | joinLoops
  | returnCause
deriving DecidableEq

/-- Embeds the literal order of the tail of `Connection.Start`:
`<-ctx.Done()`, then `conn.Close()`, then `wg.Wait()`, then
`return context.Cause(ctx)`. The stream is closed before the loops are
joined — closing is what unblocks the read loop. -/
def startFinishSequence : List StartPhase :=
  [.awaitCancel, .closeStream, .joinLoops, .returnCause]

/-- Embeds the value `Connection.Start` returns once the context is done:
the wrapped `conn.Close` error if closing fails, otherwise
`context.Cause(ctx)` — which is never nil for a done context. -/
def startFinish (closeErr : Option String) (recorded : Option GoError) :
    Option GoError :=
  match closeErr with
  | some msg => some (.closeError msg)
  | none => some (contextCause recorded)

/-- Specification-side description of how a line equal to `BEGIN` is
treated in each parser state, following the claim's words: only in Idle
(`stateReceive`) does it start a transaction, resetting the accumulators;
in `stateReply` it becomes the reply's command name; in `stateData` it is
appended verbatim to the data (advancing past the declared length moves
to `stateDataEnd`); in `stateStatus`, `stateDataStart`, `stateDataLength`
and `stateDataEnd` it is a protocol error that resets to Idle (the
`stateDataLength` error also leaves Go's zero `Atoi` result in
`dataLength`); the unreachable `stateMessage` ignores the line. -/
def beginLineSpec (r : LircReader) : LircReader × List ROutput :=
  match r.state with
  | .stateReceive =>
    ({ r with
         state := .stateReply
         reply := { command := "", success := false, data := [] }
         dataCount := 0
         dataLength := 0 }, [])
  | .stateReply =>
    ({ r with
         state := .stateStatus
         reply := { command := "BEGIN", success := true, data := [] } }, [])
  | .stateStatus => ({ r with state := .stateReceive }, [])
  | .stateDataStart => ({ r with state := .stateReceive }, [])
  | .stateDataLength => ({ r with state := .stateReceive, dataLength := 0 }, [])
  | .stateData =>
    let reply := { r.reply with data := r.reply.data ++ ["BEGIN"] }
    if r.dataCount + 1 > r.dataLength then
      ({ r with reply := reply, dataCount := r.dataCount + 1, state := .stateDataEnd }, [])
    else
      ({ r with reply := reply, dataCount := r.dataCount + 1 }, [])
  | .stateDataEnd => ({ r with state := .stateReceive }, [])
  | .stateMessage => (r, [])

/-- C9: The literal line `BEGIN` starts a reply transaction (resetting the
per-transaction accumulators and moving to the reply-header state) only
when the parser is Idle; in every other state it receives that state's
ordinary treatment — the reply's command name in `stateReply`, appended
verbatim to the data in `stateData`, and a protocol error resetting to
Idle in `stateStatus`, `stateDataStart` and `stateDataEnd` — and it never
delivers an output. -/
theorem begin_only_starts_transaction_in_idle (done : Bool) (r : LircReader) :
    read done r "BEGIN" = some (beginLineSpec r) := by
  rcases r with ⟨st, rep, cnt, len⟩
  cases st <;>
    simp [read, beginLineSpec, stateErrorR, atoiGo, atoiCore, digitsVal]
  split <;> rfl

/-- C10: when the shared context is already cancelled at the moment a
reply transaction completes (an `END` line in the status, data-start or
data-end state), the completed reply is dropped — no output is emitted —
and the parser still ends the transaction in Idle. The embedding of
`flushReply` is a total function, reflecting that the `select` on the
cancelled context cannot block. -/
theorem cancelled_context_drops_completed_reply (r : LircReader) :
    read true { r with state := .stateStatus } "END" =
        some ({ r with state := .stateReceive }, [])
      ∧ read true { r with state := .stateDataStart } "END" =
        some ({ r with state := .stateReceive }, [])
      ∧ read true { r with state := .stateDataEnd } "END" =
        some ({ r with state := .stateReceive }, []) := by
  rcases r with ⟨st, rep, cnt, len⟩
  refine ⟨?_, ?_, ?_⟩ <;> rfl

/-- C5: one-in-flight invariant of the dispatch loop. A successful write
moves the slot to `awaiting`; in `awaiting` command intake is disabled
and the select cannot take a command at all; the only event that
re-enables intake from `awaiting` is a completed reply whose command name
is not the configuration-reload notification, delivered to the waiting
caller (context not done), and that same step emits the delivery. -/
theorem one_in_flight_gate (tokens : List String) (e : DispatchEvent) :
    (dispatchStep .accepting (.recvCommand tokens true)).1 = .awaiting
      ∧ commandIntakeEnabled .awaiting = false
      ∧ dispatchEnabled .awaiting (.recvCommand tokens true) = false
      ∧ (commandIntakeEnabled (dispatchStep .awaiting e).1 = true →
          ∃ rep, e = .recvReply rep false ∧ rep.command ≠ "SIGHUP"
            ∧ (dispatchStep .awaiting e).2 = [.deliverReply rep]) := by
  refine ⟨rfl, rfl, rfl, ?_⟩
  intro h
  cases e with
  | ctxDone => simp [dispatchStep, commandIntakeEnabled] at h
  | recvCommand t ok => simp [dispatchStep, commandIntakeEnabled] at h
  | recvReply rep d =>
    by_cases hs : rep.command = "SIGHUP"
    · simp [dispatchStep, hs, commandIntakeEnabled] at h
    · cases d with
      | true => simp [dispatchStep, hs, commandIntakeEnabled] at h
      | false => exact ⟨rep, rfl, hs, by simp [dispatchStep, hs]⟩

/-- Witness for `one_in_flight_gate`: instantiated at a completed
`VERSION` reply arriving while a command is outstanding. -/
theorem one_in_flight_gate_witness :
    ∃ rep, DispatchEvent.recvReply ⟨"VERSION", true, ["0.10.2"]⟩ false =
        .recvReply rep false
      ∧ rep.command ≠ "SIGHUP"
      ∧ (dispatchStep .awaiting
          (.recvReply ⟨"VERSION", true, ["0.10.2"]⟩ false)).2 =
          [.deliverReply rep] :=
  (one_in_flight_gate []
      (.recvReply ⟨"VERSION", true, ["0.10.2"]⟩ false)).2.2.2 (by decide)

/-- C6: a completed reply whose command name is the configuration-reload
notification `SIGHUP` is only logged: the dispatch loop's slot is exactly
as it was (disabled intake stays disabled, enabled stays enabled), and no
delivery to a waiting `SendCommand` caller is emitted. -/
theorem sighup_reply_preserves_slot (s : DispatchState) (rep : CommandReply)
    (d : Bool) (hcmd : rep.command = "SIGHUP") (hs : s ≠ .terminated) :
    dispatchStep s (.recvReply rep d) = (s, [.logSighup]) := by
  cases s with
  | terminated => exact absurd rfl hs
  | accepting => simp [dispatchStep, hcmd]
  | awaiting => simp [dispatchStep, hcmd]

/-- Witness for `sighup_reply_preserves_slot`: a `SIGHUP` notification
arriving while a command is outstanding leaves the slot `awaiting`. -/
theorem sighup_reply_preserves_slot_witness :
    dispatchStep .awaiting (.recvReply ⟨"SIGHUP", true, []⟩ false) =
      (.awaiting, [.logSighup]) :=
  sighup_reply_preserves_slot .awaiting ⟨"SIGHUP", true, []⟩ false rfl
    (by decide)

/-- C1: evaluating the reader on the exact `VERSION` transaction of
Scenario A (`BEGIN`, `VERSION`, `SUCCESS`, `DATA`, `1`, `0.10.2`, `END`)
shows the off-by-one in the data-collect state: the terminating `END`
line is appended to the reply's data (which becomes
`["0.10.2", "END"]`), the parser stops in `stateDataEnd` still waiting
for a further line, and no `CommandReply` is ever delivered — the output
list is empty, contradicting the claimed delivery of
`{command := "VERSION", success := true, data := ["0.10.2"]}` (which the
repository's own `TestVersion` also asserts). -/
theorem scenario_a_transaction_stalls_without_delivery :
    readLines false newLircReader
        ["BEGIN", "VERSION", "SUCCESS", "DATA", "1", "0.10.2", "END"] =
      some (⟨.stateDataEnd, ⟨"VERSION", true, ["0.10.2", "END"]⟩, 2, 1⟩, []) := by
  decide

/-- C3: evaluating the reader in Idle on a non-`BEGIN` line with a single
whitespace-separated field whose first field is valid 16-digit hex: the
code indexes the second field without a bounds check, which in Go is an
index-out-of-range panic (modelled as `none`) that crashes the process —
not a logged protocol error with a reset to Idle. -/
theorem short_event_line_panics :
    read false newLircReader "00000000000000aa" = none := by
  decide

/-- C4: evaluating the reader in the data-length state on the line `-1`:
`strconv.Atoi` accepts the negative value, and
`make([]string, 0, -1)` then panics (modelled as `none`), crashing the
process — not a logged protocol error with a reset to Idle. -/
theorem negative_data_length_panics :
    read false ⟨.stateDataLength, ⟨"VERSION", true, []⟩, 0, 0⟩ "-1" = none := by
  decide

/-- C2 counterexample: for the Scenario B transaction (`BEGIN`,
`LIST DenonTuner`, `ERROR`, `END`) and the command tokens
`["LIST", "DenonTuner"]`, the delivered reply has `success = false` as
claimed, but `SendCommand` does not return the "unsuccessful command"
sentinel: the command-name comparison against the first encoded token
`"LIST"` runs first and fails on the full echoed header. -/
theorem scenario_b_sentinel_counterexample :
    readLines false newLircReader ["BEGIN", "LIST DenonTuner", "ERROR", "END"] =
        some (⟨.stateReceive, ⟨"LIST DenonTuner", false, []⟩, 0, 0⟩,
              [.reply ⟨"LIST DenonTuner", false, []⟩])
      ∧ sendCommandDecision (listEncodeCommand "DenonTuner")
          ⟨"LIST DenonTuner", false, []⟩ ≠ some .errUnsuccessfulCommand := by
  decide

/-- C2 amended: the Scenario B transaction yields a `CommandReply` with
`success = false`, and `SendCommand` returns the correlation error
("unexpected reply command") carrying the echoed header
`"LIST DenonTuner"`, because the reply's command name is compared with
the first encoded token `"LIST"` before the success flag is examined. -/
theorem scenario_b_yields_correlation_error :
    readLines false newLircReader ["BEGIN", "LIST DenonTuner", "ERROR", "END"] =
        some (⟨.stateReceive, ⟨"LIST DenonTuner", false, []⟩, 0, 0⟩,
              [.reply ⟨"LIST DenonTuner", false, []⟩])
      ∧ sendCommandDecision (listEncodeCommand "DenonTuner")
          ⟨"LIST DenonTuner", false, []⟩ =
          some (.errUnexpectedReplyCommand "LIST DenonTuner") := by
  decide

/-- C8 counterexample: on a clean external cancellation — no fatal I/O
error recorded as the cause and a successful `conn.Close` — `Start`
returns `context.Canceled`, which is a non-nil error, not nil:
`context.Cause` of a done context is never nil (the repository's own test
harness special-cases `err != context.Canceled` for exactly this
reason). -/
theorem clean_cancellation_returns_canceled :
    startFinish none none = some .canceled
      ∧ startFinish none none ≠ none := by
  decide

/-- C8 amended: `Start` waits for the shared context to be done, closes
the stream, then joins both loops, and returns the recorded cancellation
cause (or the wrapped close error if closing fails); the returned error
is never nil once cancellation has occurred, and on clean external
cancellation the cause — hence `Start`'s result — is `context.Canceled`. -/
theorem start_returns_nonnil_recorded_cause (closeErr : Option String)
    (recorded : Option GoError) :
    startFinishSequence = [.awaitCancel, .closeStream, .joinLoops, .returnCause]
      ∧ (startFinish closeErr recorded).isSome = true
      ∧ startFinish none recorded = some (contextCause recorded)
      ∧ contextCause none = .canceled := by
  refine ⟨rfl, ?_, rfl, rfl⟩
  cases closeErr <;> rfl

/-- C7: event round trip. For every line processed in Idle that splits on
single spaces into exactly four fields — where the first field, after
left zero-padding to 16 digits, is valid hexadecimal decoding to exactly
8 bytes, and the second parses as a non-negative decimal — the reader
emits a `ButtonPress` whose button name and remote-control name are the
third and fourth fields verbatim, whose repeat count is the decimal value
of the second, and whose code is the little-endian 16-bit value of the
first two decoded bytes; the parser stays in Idle with its accumulators
untouched. -/
theorem event_line_round_trip (r : LircReader) (line hx rp btn remote : String)
    (c : List Nat) (k : Nat)
    (hst : r.state = .stateReceive)
    (hsplit : stringsSplitSpace line = [hx, rp, btn, remote])
    (hhex : hexDecode (padLeft16 hx) = some c)
    (hlen : c.length = 8)
    (hrep : parseUintGo rp = some k) :
    read false r line =
      some (r, [.event ⟨leUint16 c, k, btn, remote⟩]) := by
  have hne : line ≠ "BEGIN" := by
    intro h
    subst h
    rw [show stringsSplitSpace "BEGIN" = ["BEGIN"] from rfl] at hsplit
    simp at hsplit
  rcases r with ⟨st, rep, cnt, len⟩
  simp only at hst
  subst hst
  simp [read, hne, hsplit, hhex, hlen, hrep]

/-- Witness for `event_line_round_trip`: Scenario C. The event line
`000000000000002a 0 KEY_POWER Television` decodes to button name
`KEY_POWER`, remote-control name `Television`, repeat count 0, and code 0
(the little-endian value of the first two bytes `00 00` of the 8-byte
decode). -/
theorem event_line_round_trip_witness :
    read false newLircReader "000000000000002a 0 KEY_POWER Television" =
      some (newLircReader, [.event ⟨0, 0, "KEY_POWER", "Television"⟩]) := by
  have h := event_line_round_trip newLircReader
      "000000000000002a 0 KEY_POWER Television"
      "000000000000002a" "0" "KEY_POWER" "Television"
      [0, 0, 0, 0, 0, 0, 0, 42] 0
      rfl (by decide) (by decide) (by decide) (by decide)
  exact h

end GoLirc
